import Mathlib

/-!
Verification of the cmr-connector-lib database connectors: a shallow
embedding in Lean 4 of the SQL-text generators of the library
(`postgres_connector.py`, `informix_connector.py`, `sql_server_connector.py`,
`sql_connector_utils.py` and the two `*_connector_utils.py` clause-builder
modules), together with proofs about the generated SQL.

Modelling conventions, used throughout:
* Python strings are Lean `String`s; dictionary fields read with
  `d.get(key)` and then only tested for truthiness or interpolated are
  modelled as `String` with `""` standing for an absent key; fields read
  with `d.get(key, default)` where an absent key and a present-but-empty
  value behave differently are modelled as `Option String`.
* `", ".join(parts)` is `joinSep ", " parts`; the truthiness of
  `clause.strip()` is `hasNonWs clause`; Python `lstrip()` is `pyLstrip`.
* Machine integers are `Int`/`Nat`; Python `%` on a positive modulus agrees
  with Lean `Int.emod`, which `%` denotes on `Int`.
-/

/-- Python `sep.join(parts)`. -/
def joinSep (sep : String) : List String → String
  | [] => ""
  | [a] => a
  | a :: b :: l => a ++ sep ++ joinSep sep (b :: l)

/-- Truthiness of Python `s.strip()`: `s` holds at least one
non-whitespace character. -/
def hasNonWs (s : String) : Bool :=
  s.data.any (fun c => !c.isWhitespace)

/-- Python `s.lstrip()`: drop leading whitespace. -/
def pyLstrip (s : String) : String :=
  String.mk (s.data.dropWhile Char.isWhitespace)

/-- Python `s.upper()` (ASCII upper-casing, character by character; the
source only upper-cases ASCII keywords such as connector names). -/
def pyUpper (s : String) : String :=
  String.mk (s.data.map Char.toUpper)

/-- Python `s.strip()`: drop whitespace at both ends. -/
def pyStrip (s : String) : String :=
  String.mk (((s.data.dropWhile Char.isWhitespace).reverse.dropWhile
    Char.isWhitespace).reverse)

/-- Python `s.replace(a, b)` for single characters (the source replaces
spaces with underscores in aliases). -/
def pyReplaceChar (s : String) (a b : Char) : String :=
  String.mk (s.data.map (fun ch => if ch = a then b else ch))

/-- Python `value.replace("'", "''")` on a string: double every single
quote. -/
def escapeQuotes (s : String) : String :=
  String.mk (List.flatten (s.data.map (fun c => if c = '\'' then [c, c] else [c])))

/-- `tok` occurs as a contiguous substring of `s` (used to speak about SQL
keywords occurring in generated query text). -/
abbrev sqlHasToken (tok s : String) : Prop :=
  tok.data <:+: s.data

section TypeCatalog

/-!
`sql_connector_utils.py`: the Informix native type-code lookup tables.
`informix_to_ts_table` and `informix_to_pg_table` are the two dictionary
literals of `cast_informix_to_typescript_types` and
`cast_informix_to_postgresql_type`; the functions wrap them with their
respective default and, for the PostgreSQL one, the `% 256` reduction of
the code.
-/

/-- The `informix_to_ts` dictionary of `cast_informix_to_typescript_types`. -/
def informix_to_ts_table : Int → Option String
  | 1 => some "number"
  | 2 => some "number"
  | 3 => some "number"
  | 4 => some "number"
  | 5 => some "number"
  | 6 => some "number"
  | 8 => some "number"
  | 17 => some "number"
  | 18 => some "number"
  | 52 => some "number"
  | 53 => some "number"
  | 25 => some "number"
  | 26 => some "number"
  | 262 => some "number"
  | 0 => some "string"
  | 12 => some "string"
  | 13 => some "string"
  | 15 => some "string"
  | 16 => some "string"
  | 40 => some "string"
  | 42 => some "string"
  | 43 => some "string"
  | 27 => some "string"
  | 35 => some "string"
  | 37 => some "string"
  | 256 => some "string"
  | 258 => some "string"
  | 269 => some "string"
  | 2061 => some "string"
  | 7 => some "Date"
  | 10 => some "Date"
  | 14 => some "string"
  | 263 => some "Date"
  | 41 => some "boolean"
  | 45 => some "boolean"
  | 28 => some "boolean"
  | 32 => some "boolean"
  | 11 => some "binary"
  | 31 => some "binary"
  | 36 => some "binary"
  | 19 => some "string[]"
  | 20 => some "string[]"
  | 21 => some "string[]"
  | 23 => some "any[]"
  | 22 => some "Record<string, any>"
  | 24 => some "Record<string, any>"
  | 4117 => some "Record<string, any>"
  | 4118 => some "Record<string, any>"
  | 9 => some "null"
  | _ => Option.none

/-- `cast_informix_to_typescript_types`: raw-code lookup, default
`"unknown"`. -/
def cast_informix_to_typescript_types (informix_type : Int) : String :=
  (informix_to_ts_table informix_type).getD "unknown"

/-- The `informix_to_pg` dictionary of `cast_informix_to_postgresql_type`. -/
def informix_to_pg_table : Int → Option String
  | 1 => some "SMALLINT"
  | 2 => some "INTEGER"
  | 3 => some "DOUBLE PRECISION"
  | 4 => some "REAL"
  | 5 => some "DECIMAL"
  | 6 => some "SERIAL"
  | 8 => some "NUMERIC"
  | 17 => some "BIGINT"
  | 18 => some "BIGSERIAL"
  | 52 => some "BIGINT"
  | 53 => some "BIGSERIAL"
  | 25 => some "INTEGER"
  | 26 => some "BIGINT"
  | 262 => some "INTEGER"
  | 0 => some "CHAR"
  | 12 => some "TEXT"
  | 13 => some "VARCHAR"
  | 15 => some "CHAR"
  | 16 => some "VARCHAR"
  | 40 => some "VARCHAR"
  | 42 => some "TEXT"
  | 43 => some "VARCHAR"
  | 27 => some "VARCHAR"
  | 35 => some "TEXT"
  | 37 => some "TEXT"
  | 256 => some "TEXT"
  | 258 => some "TEXT"
  | 269 => some "VARCHAR"
  | 2061 => some "TEXT"
  | 7 => some "DATE"
  | 10 => some "TIMESTAMP"
  | 14 => some "INTERVAL"
  | 263 => some "DATE"
  | 41 => some "BOOLEAN"
  | 45 => some "BOOLEAN"
  | 28 => some "BOOLEAN"
  | 32 => some "BOOLEAN"
  | 11 => some "BYTEA"
  | 31 => some "BYTEA"
  | 36 => some "BYTEA"
  | 19 => some "TEXT[]"
  | 20 => some "TEXT[]"
  | 21 => some "TEXT[]"
  | 23 => some "JSONB"
  | 22 => some "JSONB"
  | 24 => some "JSONB"
  | 4117 => some "JSONB"
  | 4118 => some "JSONB"
  | 9 => some "TEXT"
  | _ => Option.none

/-- `cast_informix_to_postgresql_type`: looks up `informix_type % 256`
(`base_type = informix_type % 256`), default `"TEXT"`. -/
def cast_informix_to_postgresql_type (informix_type : Int) : String :=
  (informix_to_pg_table (informix_type % 256)).getD "TEXT"

end TypeCatalog

section CountRows

/-!
`InformixConnector.count_table_rows` and
`SqlServerConnector.count_table_rows`. Both run `SELECT COUNT(*)`; the
interaction with the database is abstracted as the outcome of
`cursor.execute(...).fetchone()`: either an exception (modelled by its
message) or an optional first column of the fetched row. On the exception
path the Informix connector executes `raise 0`; raising a value that is
not a `BaseException` instance itself raises a `TypeError` in Python,
which `raise_effect` models. The SQL Server connector returns `0` there.
-/

/-- A Python value handed to `raise`: either an exception instance or a
plain `int`. -/
inductive PyVal where
  | int : Int → PyVal
  | exc : String → PyVal
deriving DecidableEq

/-- The exception produced by `raise v`: an exception instance propagates
itself; a non-exception value (such as the int `0`) makes `raise` itself
fail with `TypeError`. -/
def raise_effect : PyVal → String
  | .exc e => e
  | .int _ => "TypeError"

/-- `InformixConnector.count_table_rows`, over the abstracted query
outcome: `int(count_result[0]) if count_result else 0` on success,
`raise 0` in the `except` branch. -/
def informix_count_table_rows (queryOutcome : Except String (Option Int)) :
    Except String Int :=
  match queryOutcome with
  | .ok countResult => .ok (countResult.getD 0)
  | .error _ => .error (raise_effect (.int 0))

/-- `SqlServerConnector.count_table_rows`: identical success path, but the
`except` branch is `return 0`. -/
def sqlserver_count_table_rows (queryOutcome : Except String (Option Int)) :
    Except String Int :=
  match queryOutcome with
  | .ok countResult => .ok (countResult.getD 0)
  | .error _ => .ok 0

end CountRows

section BatchQueries

/-!
The bounded batch-read query of each connector's `extract_data_batch`.
Each definition is the f-string of the source, split at the interpolation
holes. The PostgreSQL variant takes the already-built filter clause
(empty when no filters are given, as in the other two dialects).
-/

/-- `InformixConnector.extract_data_batch`:
`f'SELECT SKIP {offset} FIRST {limit} * FROM {table_name};'`. -/
def informix_extract_data_batch_query (table_name : String) (offset limit : Nat) : String :=
  "SELECT SKIP " ++ toString offset ++ " FIRST " ++ toString limit ++
    " * FROM " ++ table_name ++ ";"

/-- `PostgresConnector.extract_data_batch`:
`f"SELECT * FROM {table_name}{where_clause} OFFSET {offset} LIMIT {limit};"`. -/
def postgres_extract_data_batch_query (table_name where_clause : String)
    (offset limit : Nat) : String :=
  "SELECT * FROM " ++ table_name ++ where_clause ++ " OFFSET " ++ toString offset ++
    " LIMIT " ++ toString limit ++ ";"

/-- `SqlServerConnector.extract_data_batch`:
`f"SELECT * FROM {table_name} ORDER BY (SELECT NULL) OFFSET {offset} ROWS
FETCH NEXT {limit} ROWS ONLY;"`. -/
def sqlserver_extract_data_batch_query (table_name : String) (offset limit : Nat) : String :=
  "SELECT * FROM " ++ table_name ++ " ORDER BY (SELECT NULL) OFFSET " ++
    toString offset ++ " ROWS FETCH NEXT " ++ toString limit ++ " ROWS ONLY;"

/-- The fixed template pieces each generator emits around the table name
and the two numbers, in order. -/
def informix_batch_scaffold : List String :=
  ["SELECT SKIP ", " FIRST ", " * FROM ", ";"]

/-- Fixed template pieces of the PostgreSQL batch query. -/
def postgres_batch_scaffold : List String :=
  ["SELECT * FROM ", " OFFSET ", " LIMIT ", ";"]

/-- Fixed template pieces of the SQL Server batch query. -/
def sqlserver_batch_scaffold : List String :=
  ["SELECT * FROM ", " ORDER BY (SELECT NULL) OFFSET ", " ROWS FETCH NEXT ",
   " ROWS ONLY;"]

end BatchQueries

section QueryModel

/-!
The JSON-shaped query description handed to `build_query` and the clause
builders of `postgres_connector_utils.py` / `informix_connector_utils.py`.
-/

/-- A JSON value carried in the `value` / `secondValue` slots of a
condition. -/
inductive SqlValue where
  | none : SqlValue
  | str : String → SqlValue
  | num : Int → SqlValue
  | bool : Bool → SqlValue
  | list : List String → SqlValue
deriving DecidableEq

/-- Python truthiness of a `SqlValue`. -/
def SqlValue.truthy : SqlValue → Bool
  | .none => false
  | .str s => !(s == "")
  | .num n => !(n == 0)
  | .bool b => b
  | .list xs => !xs.isEmpty

/-- Python `str(value)`, as interpolated by an f-string. -/
def SqlValue.pyStr : SqlValue → String
  | .none => "None"
  | .str s => s
  | .num n => toString n
  | .bool b => if b then "True" else "False"
  | .list xs => "[" ++ joinSep ", " (xs.map (fun x => "'" ++ x ++ "'")) ++ "]"

/-- The elements iterated by `for v in value` when the builders format a
collection literal (non-list values are outside the claims' scope and
yield no elements). -/
def SqlValue.items : SqlValue → List String
  | .list xs => xs
  | _ => []

/-- One entry of `selectedFields`. `field`, `table`, `alias`, `aggregate`
are read with an `''`-like default in the source (`get('field', '')`,
`(get('alias') or '')`, …), so plain `String`s with `""` for an absent
key are faithful. -/
structure SelectedField where
  field : String
  table : String
  aliasStr : String
  selectType : String
  type : String
  aggregate : String
  isCountAll : Bool
deriving DecidableEq

/-- One entry of a join's `conditions`. `operator` and `connector` are
read as `get('operator', '=')` / `get('connector', 'AND')`, where an
absent key and a present empty string render differently, hence
`Option String`. -/
structure JoinCondition where
  sourceField : String
  targetField : String
  operator : Option String
  connector : Option String
deriving DecidableEq

/-- One entry of `joins`. -/
structure JoinDef where
  joinType : Option String
  targetTable : String
  conditions : List JoinCondition
deriving DecidableEq

/-- One entry of `whereConditions` (the value-comparison and
column-comparison fields share the dictionary). -/
structure WhereCondition where
  table : String
  field : String
  operator : Option String
  comparisonType : Option String
  value : SqlValue
  secondValue : SqlValue
  valueType : Option String
  connector : Option String
  targetTable : String
  targetField : String
  compareOperator : Option String
  dateUnit : Option String
deriving DecidableEq

/-- One entry of `groupByFields`. -/
structure GroupByField where
  table : String
  field : String
deriving DecidableEq

/-- One entry of `having`. -/
structure HavingCondition where
  operator : String
  table : String
  field : String
  aggregate : String
  isAggregation : Bool
  isCountAll : Bool
  value : SqlValue
  secondValue : SqlValue
  valueType : String
  connector : Option String
deriving DecidableEq

/-- The query description consumed by `PostgresConnector.build_query`. -/
structure QueryData where
  baseTable : String
  selectedFields : List SelectedField
  joins : List JoinDef
  whereConditions : List WhereCondition
  groupByFields : List GroupByField
  having : List HavingCondition
deriving DecidableEq

end QueryModel

namespace PostgresUtils

/-!
`postgres_connector_utils.py`: the PostgreSQL clause builders.
-/

/-- `_format_value`: format a literal for PostgreSQL. -/
def format_value (value : SqlValue) (field_type : String) : String :=
  match value with
  | .none => ""
  | v =>
    if field_type = "Date" then "'" ++ v.pyStr ++ "'"
    else if field_type = "Datetime" then "'" ++ v.pyStr ++ "'"
    else if field_type = "boolean" then (if v.truthy then "TRUE" else "FALSE")
    else if field_type = "number" then v.pyStr
    else if field_type = "list" ∨ field_type = "multiset" ∨ field_type = "set" then
      joinSep ", " (v.items.map (fun x => "'" ++ x ++ "'"))
    else
      match v with
      | .str s => "'" ++ escapeQuotes s ++ "'"
      | v => "'" ++ v.pyStr ++ "'"

/-- `_build_value_condition`: column versus literal, PostgreSQL syntax.
The operator strings are the `QueryOperator` enum values of `enums.py`
(note `NOT_CONTAINS = "NOT CONTAIN"`). -/
def build_value_condition (field_expr operator : String)
    (value second_value : SqlValue) (value_type : String) : String :=
  let formatted := format_value value value_type
  if operator = "BETWEEN" ∨ operator = "NOT BETWEEN" then
    let sec := format_value second_value value_type
    let op := if operator = "BETWEEN" then "BETWEEN" else "NOT BETWEEN"
    field_expr ++ " " ++ op ++ " " ++ formatted ++ " AND " ++ sec
  else if operator = "LIST CONTAINS" then
    formatted ++ " = ANY(" ++ field_expr ++ ")"
  else if operator = "LIST NOT CONTAINS" then
    "NOT (" ++ formatted ++ " = ANY(" ++ field_expr ++ "))"
  else if operator = "CONTAINS" then
    field_expr ++ " LIKE '%" ++ value.pyStr ++ "%'"
  else if operator = "NOT CONTAIN" then
    field_expr ++ " NOT LIKE '%" ++ value.pyStr ++ "%'"
  else if operator = "STARTS WITH" then
    field_expr ++ " LIKE '" ++ value.pyStr ++ "%'"
  else if operator = "ENDS WITH" then
    field_expr ++ " LIKE '%" ++ value.pyStr ++ "'"
  else if operator = "MATCHES" then
    field_expr ++ " ~ '" ++ value.pyStr ++ "'"
  else if operator = "NOT MATCHES" then
    field_expr ++ " !~ '" ++ value.pyStr ++ "'"
  else if operator = "IN" ∨ operator = "NOT IN" then
    field_expr ++ " " ++ operator ++ " (" ++ formatted ++ ")"
  else
    field_expr ++ " " ++ operator ++ " " ++ formatted

/-- `_build_column_condition`: column versus column, with `EXTRACT()`
date arithmetic for `valueType == 'Date'`. -/
def build_column_condition (c : WhereCondition) : String :=
  let left := if c.table ≠ "" then c.table ++ "." ++ c.field else c.field
  let right :=
    if c.targetTable ≠ "" then c.targetTable ++ "." ++ c.targetField else c.targetField
  let cmpOp := c.compareOperator.getD "="
  let opStr := c.operator.getD ""
  if c.valueType.getD "string" ≠ "Date" then
    let base := left ++ " " ++ cmpOp ++ " " ++ right
    if opStr ≠ "" then base ++ " " ++ opStr ++ " " ++ c.value.pyStr else base
  else
    let expr :=
      if c.dateUnit = some "YEAR" then
        "(EXTRACT(YEAR FROM " ++ left ++ ") - EXTRACT(YEAR FROM " ++ right ++ "))"
      else if c.dateUnit = some "MONTH" then
        "((EXTRACT(YEAR FROM " ++ left ++ ") - EXTRACT(YEAR FROM " ++ right ++
          ")) * 12 + (EXTRACT(MONTH FROM " ++ left ++ ") - EXTRACT(MONTH FROM " ++
          right ++ ")))"
      else
        "(" ++ left ++ " - " ++ right ++ ")"
    if opStr ≠ "" then expr ++ " " ++ opStr ++ " " ++ c.value.pyStr else expr

/-- The clause built for one condition of `_build_where_clause` (the loop
body, without the connector prefix). -/
def condition_clause (c : WhereCondition) : String :=
  let expr := if c.table ≠ "" then c.table ++ "." ++ c.field else c.field
  if c.comparisonType = some "COLUMN" then build_column_condition c
  else
    build_value_condition expr (c.operator.getD "=") c.value c.secondValue
      (c.valueType.getD "string")

/-- The `parts` list of `_build_where_clause`: each element is the
condition's clause prefixed, from the second position on, with the
previous condition's connector (`get('connector', 'AND')`) and a space;
an empty clause is skipped but still acts as connector source for its
successor. -/
def where_parts (prev : Option WhereCondition) : List WhereCondition → List String
  | [] => []
  | c :: rest =>
    let clause := condition_clause c
    let tail := where_parts (some c) rest
    if clause = "" then tail
    else
      match prev with
      | Option.none => clause :: tail
      | some p => ((p.connector.getD "AND") ++ " " ++ clause) :: tail

/-- `_build_where_clause` for PostgreSQL. -/
def build_where_clause (conditions : List WhereCondition) (invert : Bool) : String :=
  if conditions.isEmpty then ""
  else
    let w := joinSep " " (where_parts Option.none conditions)
    if invert then "WHERE NOT (" ++ w ++ ")"
    else if w ≠ "" then "WHERE " ++ w else ""

end PostgresUtils

namespace PostgresUtils

/-- One element of `select_parts` in `_build_select_clause` (`aliasStr`
models the source's `alias`, a Lean keyword). -/
def select_part (f : SelectedField) : String :=
  let al := pyReplaceChar (pyStrip f.aliasStr) ' ' '_'
  let aggregate := pyUpper f.aggregate
  let columnExpr := if f.table ≠ "" then f.table ++ "." ++ f.field else f.field
  let columnExpr :=
    if f.selectType = "AGGREGATE" ∧ aggregate ≠ "" then
      if aggregate = "COUNT(DISTINCT)" then "COUNT(DISTINCT " ++ columnExpr ++ ")"
      else if aggregate = "DISTINCT" then "DISTINCT " ++ columnExpr
      else if f.isCountAll then "COUNT(*)"
      else aggregate ++ "(" ++ columnExpr ++ ")"
    else columnExpr
  let columnExpr :=
    if (f.type = "list" ∨ f.type = "set" ∨ f.type = "multiset") ∧
        f.selectType = "NORMAL" then
      columnExpr ++ "::TEXT"
    else columnExpr
  if al ≠ "" then columnExpr ++ " AS " ++ al else columnExpr

/-- `_build_select_clause` for PostgreSQL. -/
def build_select_clause (selected_fields : List SelectedField) : String :=
  if selected_fields.isEmpty then "SELECT *"
  else "SELECT " ++ joinSep ", " (selected_fields.map select_part)

/-- The `join_map.get(jt, "INNER JOIN")` lookup of `_build_joins_clause`. -/
def join_keyword (joinType : Option String) : String :=
  let jt := pyUpper (joinType.getD "INNER")
  if jt = "INNER" then "INNER JOIN"
  else if jt = "LEFT" then "LEFT JOIN"
  else if jt = "RIGHT" then "RIGHT JOIN"
  else "INNER JOIN"

/-- The `clauses` list of one join in `_build_joins_clause`: each
condition with a `sourceField` and a `targetField` contributes
`f"{connector}{base_table}.{src} {op} {target}.{tgt}"`, where `connector`
is empty at index 0 and otherwise ` {prev connector, upper-cased} `
taken from the positional predecessor. -/
def join_condition_clauses (base_table target : String)
    (prev : Option JoinCondition) : List JoinCondition → List String
  | [] => []
  | c :: rest =>
    let connector :=
      match prev with
      | Option.none => ""
      | some p => " " ++ pyUpper (p.connector.getD "AND") ++ " "
    let tail := join_condition_clauses base_table target (some c) rest
    if c.sourceField ≠ "" ∧ c.targetField ≠ "" then
      (connector ++ base_table ++ "." ++ c.sourceField ++ " " ++
        (c.operator.getD "=") ++ " " ++ target ++ "." ++ c.targetField) :: tail
    else tail

/-- One element of `parts` in `_build_joins_clause`; a join without a
target table or without conditions is skipped. -/
def join_part (base_table : String) (j : JoinDef) : Option String :=
  if j.targetTable = "" ∨ j.conditions.isEmpty then Option.none
  else
    some (join_keyword j.joinType ++ " " ++ j.targetTable ++ " ON " ++
      pyLstrip (joinSep ""
        (join_condition_clauses base_table j.targetTable Option.none j.conditions)))

/-- `_build_joins_clause` for PostgreSQL. -/
def build_joins_clause (base_table : String) (joins : List JoinDef) : String :=
  joinSep " " (joins.filterMap (join_part base_table))

/-- `_build_group_by` for PostgreSQL. -/
def build_group_by (group_by_fields : List GroupByField) : String :=
  if group_by_fields.isEmpty then ""
  else
    "GROUP BY " ++ joinSep ", "
      (group_by_fields.filterMap (fun f =>
        if f.field = "" then Option.none
        else some (if f.table ≠ "" then f.table ++ "." ++ f.field else f.field)))

/-- `format_having_condition` for PostgreSQL: `None` (here `none`) when
the operator is missing. -/
def format_having_condition (h : HavingCondition) (connector : String) :
    Option String :=
  if h.operator = "" then Option.none
  else
    let expr := if h.table ≠ "" then h.table ++ "." ++ h.field else h.field
    let expr :=
      if h.isAggregation ∧ h.aggregate ≠ "" then
        if h.aggregate = "COUNT(DISTINCT)" then "COUNT(DISTINCT " ++ expr ++ ")"
        else if h.isCountAll then "COUNT(*)"
        else h.aggregate ++ "(" ++ expr ++ ")"
      else expr
    some (connector ++ build_value_condition expr h.operator h.value h.secondValue
      h.valueType)

/-- The `conds` list of `_build_having_clause`: connector
` {prev connector} ` from the positional predecessor, empty at index 0. -/
def having_parts (prev : Option HavingCondition) : List HavingCondition → List String
  | [] => []
  | h :: rest =>
    let connector :=
      match prev with
      | Option.none => ""
      | some p => " " ++ (p.connector.getD "AND") ++ " "
    let tail := having_parts (some h) rest
    match format_having_condition h connector with
    | some c => c :: tail
    | Option.none => tail

/-- `_build_having_clause` for PostgreSQL. -/
def build_having_clause (having_fields : List HavingCondition) : String :=
  if having_fields.isEmpty then ""
  else
    let conds := having_parts Option.none having_fields
    if conds.isEmpty then "" else "HAVING " ++ joinSep "" conds

end PostgresUtils

/-- `PostgresConnector.build_query`: `None` when `baseTable` is missing
or empty, otherwise the non-blank clauses joined with newlines in the
fixed order SELECT, FROM, JOIN, WHERE, GROUP BY, HAVING. The source's
`except` handler (which turns an exception inside a builder into `None`)
has no counterpart: the embedded builders are total. -/
def postgres_build_query (data : QueryData) (invert_where : Bool) : Option String :=
  if data.baseTable = "" then Option.none
  else
    let clauses := [PostgresUtils.build_select_clause data.selectedFields,
                    "FROM " ++ data.baseTable,
                    PostgresUtils.build_joins_clause data.baseTable data.joins,
                    PostgresUtils.build_where_clause data.whereConditions invert_where,
                    PostgresUtils.build_group_by data.groupByFields,
                    PostgresUtils.build_having_clause data.having]
    some (joinSep "\n" (clauses.filter hasNonWs))

namespace InformixUtils

/-!
`informix_connector_utils.py`: the Informix clause builders (the SELECT,
GROUP BY and HAVING builders are not needed by any claim and are
omitted).
-/

/-- `_format_value`: format a literal for Informix
(`TO_DATE('…', '%Y-%m-%d')` dates, `'t'`/`'f'` booleans). -/
def format_value (value : SqlValue) (field_type : String) : String :=
  match value with
  | .none => ""
  | v =>
    if field_type = "Date" then "TO_DATE('" ++ v.pyStr ++ "', '%Y-%m-%d')"
    else if field_type = "Datetime" then "'" ++ v.pyStr ++ "'"
    else if field_type = "boolean" then (if v.truthy then "'t'" else "'f'")
    else if field_type = "number" then v.pyStr
    else if field_type = "list" ∨ field_type = "multiset" ∨ field_type = "set" then
      joinSep ", " (v.items.map (fun x => "'" ++ x ++ "'"))
    else
      match v with
      | .str s => "'" ++ escapeQuotes s ++ "'"
      | v => "'" ++ v.pyStr ++ "'"

/-- `_build_value_condition` for Informix. The braces of the collection
literal `{…}` are written `\x7b`/`\x7d`. -/
def build_value_condition (field_expr operator : String)
    (value second_value : SqlValue) (value_type : String) : String :=
  let formatted := format_value value value_type
  if operator = "BETWEEN" ∨ operator = "NOT BETWEEN" then
    let sec := format_value second_value value_type
    let op := if operator = "BETWEEN" then "BETWEEN" else "NOT BETWEEN"
    field_expr ++ " " ++ op ++ " " ++ formatted ++ " AND " ++ sec
  else if operator = "LIST CONTAINS" then
    "'" ++ value.pyStr ++ "' IN " ++ field_expr
  else if operator = "LIST NOT CONTAINS" then
    "'" ++ value.pyStr ++ "' NOT IN " ++ field_expr
  else if operator = "CONTAINS" then
    field_expr ++ " LIKE '%" ++ value.pyStr ++ "%'"
  else if operator = "NOT CONTAIN" then
    field_expr ++ " NOT LIKE '%" ++ value.pyStr ++ "%'"
  else if operator = "STARTS WITH" then
    field_expr ++ " LIKE '" ++ value.pyStr ++ "%'"
  else if operator = "ENDS WITH" then
    field_expr ++ " LIKE '%" ++ value.pyStr ++ "'"
  else if operator = "MATCHES" ∨ operator = "NOT MATCHES" then
    field_expr ++ " " ++ operator ++ " '" ++ value.pyStr ++ "'"
  else if operator = "IN" ∨ operator = "NOT IN" then
    field_expr ++ " " ++ operator ++ " (" ++ formatted ++ ")"
  else if (value_type = "list" ∨ value_type = "set" ∨ value_type = "multiset") ∧
      (operator = "=" ∨ operator = "!=") then
    field_expr ++ " " ++ operator ++ " " ++ pyUpper value_type ++ "\x7b" ++
      formatted ++ "\x7d"
  else
    field_expr ++ " " ++ operator ++ " " ++ formatted

/-- `_build_column_condition` for Informix: `YEAR()`/`MONTH()` date
arithmetic. In the date branch the source tests `operator is not None`
(not truthiness), hence the `match` there. -/
def build_column_condition (c : WhereCondition) : String :=
  let left := if c.table ≠ "" then c.table ++ "." ++ c.field else c.field
  let right :=
    if c.targetTable ≠ "" then c.targetTable ++ "." ++ c.targetField else c.targetField
  let cmpOp := c.compareOperator.getD "="
  if c.valueType.getD "string" ≠ "Date" then
    let base := left ++ " " ++ cmpOp ++ " " ++ right
    let opStr := c.operator.getD ""
    if opStr ≠ "" then base ++ " " ++ opStr ++ " " ++ c.value.pyStr else base
  else
    let expr :=
      if c.dateUnit = some "YEAR" then
        "(YEAR(" ++ left ++ ") - YEAR(" ++ right ++ "))"
      else if c.dateUnit = some "MONTH" then
        "((YEAR(" ++ left ++ ") - YEAR(" ++ right ++ ")) * 12 + (MONTH(" ++
          left ++ ") - MONTH(" ++ right ++ ")))"
      else
        "(" ++ left ++ " " ++ cmpOp ++ " " ++ right ++ ")"
    match c.operator with
    | some op => expr ++ " " ++ op ++ " " ++ c.value.pyStr
    | Option.none => expr

/-- The clause built for one condition of the Informix
`_build_where_clause` loop body. -/
def condition_clause (c : WhereCondition) : String :=
  let expr := if c.table ≠ "" then c.table ++ "." ++ c.field else c.field
  if c.comparisonType = some "COLUMN" then build_column_condition c
  else
    build_value_condition expr (c.operator.getD "=") c.value c.secondValue
      (c.valueType.getD "string")

/-- The `where_parts` list of the Informix `_build_where_clause`: the
first part is the bare clause, later parts are
`f"{connector} {condition_part}"` with the connector read from the
positional predecessor. -/
def where_parts (prev : Option WhereCondition) : List WhereCondition → List String
  | [] => []
  | c :: rest =>
    let clause := condition_clause c
    let tail := where_parts (some c) rest
    if clause = "" then tail
    else
      match prev with
      | Option.none => clause :: tail
      | some p => ((p.connector.getD "AND") ++ " " ++ clause) :: tail

/-- `_build_where_clause` for Informix: the `NOT (…)` wrap additionally
requires the body to be non-empty (`if invert and where_clause`). -/
def build_where_clause (conditions : List WhereCondition) (invert : Bool) : String :=
  if conditions.isEmpty then ""
  else
    let w := joinSep " " (where_parts Option.none conditions)
    if invert ∧ w ≠ "" then "WHERE NOT (" ++ w ++ ")"
    else if w ≠ "" then "WHERE " ++ w else ""

/-- The per-join condition clauses of the Informix `_build_joins_clause`
(same shape as the PostgreSQL one). -/
def join_condition_clauses (base_table target : String)
    (prev : Option JoinCondition) : List JoinCondition → List String
  | [] => []
  | c :: rest =>
    let connector :=
      match prev with
      | Option.none => ""
      | some p => " " ++ pyUpper (p.connector.getD "AND") ++ " "
    let tail := join_condition_clauses base_table target (some c) rest
    if c.sourceField ≠ "" ∧ c.targetField ≠ "" then
      (connector ++ base_table ++ "." ++ c.sourceField ++ " " ++
        (c.operator.getD "=") ++ " " ++ target ++ "." ++ c.targetField) :: tail
    else tail

/-- One join of the Informix `_build_joins_clause`. -/
def join_part (base_table : String) (j : JoinDef) : Option String :=
  if j.targetTable = "" ∨ j.conditions.isEmpty then Option.none
  else
    some (PostgresUtils.join_keyword j.joinType ++ " " ++ j.targetTable ++ " ON " ++
      pyLstrip (joinSep ""
        (join_condition_clauses base_table j.targetTable Option.none j.conditions)))

/-- `_build_joins_clause` for Informix. -/
def build_joins_clause (base_table : String) (joins : List JoinDef) : String :=
  joinSep " " (joins.filterMap (join_part base_table))

end InformixUtils

section DeltaQueries

/-!
The `fetch_deltas` delta queries, modelled by their conceptual execution
against an abstract change-log table: a list of rows, each carrying its
primary-key column values (`key`), its `Date_operation` timestamp (`ts`)
and a payload distinguishing otherwise equal rows. Pagination
(`SKIP`/`FIRST`, `LIMIT`/`OFFSET`, `OFFSET … FETCH NEXT`) and the final
`ORDER BY` only split and order the result set and are not modelled: the
claims are about which rows the full result set contains.
-/

/-- A row of the change-log table `{log_table}`. -/
structure LogRow where
  key : List Int
  ts : Nat
  payload : Nat
deriving DecidableEq

/-- SQL `MAX(…)` over a column: `none` on an empty set of rows. -/
def sqlMax : List Nat → Option Nat
  | [] => Option.none
  | a :: l => some (l.foldl max a)

/-- `InformixConnector.fetch_deltas`: keep a row `lt1` when
`lt1.Date_operation = (SELECT MAX(lt2.Date_operation) FROM {log_table} lt2
WHERE {pk_match} AND lt2.Date_operation > ?) AND lt1.Date_operation > ?`.
A `NULL` subquery result (empty group) compares unequal. -/
def informix_fetch_deltas_rows (tbl : List LogRow) (T : Nat) : List LogRow :=
  tbl.filter (fun r1 =>
    (match sqlMax ((tbl.filter (fun r2 =>
        decide (r2.key = r1.key) && decide (T < r2.ts))).map (fun r => r.ts)) with
     | some m => decide (m = r1.ts)
     | Option.none => false) && decide (T < r1.ts))

/-- The row `SELECT DISTINCT ON`/`ROW_NUMBER() … rn = 1` keeps for one
key group ordered by `Date_operation DESC`: the first row of the group
carrying the maximal timestamp (ties broken by position, matching a
stable descending sort). -/
def latestRow : List LogRow → Option LogRow
  | [] => Option.none
  | r :: rest => some (rest.foldl (fun acc x => if acc.ts < x.ts then x else acc) r)

/-- `PostgresConnector.fetch_deltas`: `SELECT DISTINCT ON ({primary_key}) *
FROM {log_table} WHERE Date_operation > %s ORDER BY {primary_key},
Date_operation DESC` — one row per key, the newest post-watermark one. -/
def postgres_fetch_deltas_rows (tbl : List LogRow) (T : Nat) : List LogRow :=
  let filtered := tbl.filter (fun r => decide (T < r.ts))
  ((filtered.map (fun r => r.key)).dedup).filterMap (fun k =>
    latestRow (filtered.filter (fun r => decide (r.key = k))))

/-- `SqlServerConnector.fetch_deltas`: `ROW_NUMBER() OVER (PARTITION BY
{pk} ORDER BY Date_operation DESC)` over the post-watermark rows, keeping
`rn = 1` — one row per key, the newest post-watermark one. -/
def sqlserver_fetch_deltas_rows (tbl : List LogRow) (T : Nat) : List LogRow :=
  let filtered := tbl.filter (fun r => decide (T < r.ts))
  ((filtered.map (fun r => r.key)).dedup).filterMap (fun k =>
    latestRow (filtered.filter (fun r => decide (r.key = k))))

end DeltaQueries

section SpecOnClause

/-!
The ON-clause composition rule as the specification states it, for the
refinement comparison of claim C6: "condition *i* (i>0) is prefixed with
the connector stored on condition i-1 upper-cased" / "left-to-right fold,
not a tree".
-/

/-- The bare SQL fragment of one join condition (no connector prefix). -/
def spec_join_fragment (base target : String) (c : JoinCondition) : String :=
  base ++ "." ++ c.sourceField ++ " " ++ (c.operator.getD "=") ++ " " ++
    target ++ "." ++ c.targetField

/-- Fragments after the first: each prefixed with the upper-cased
connector stored on its predecessor (default `AND`). -/
def spec_on_clause_tail (base target : String) (prev : JoinCondition) :
    List JoinCondition → String
  | [] => ""
  | c :: rest =>
    " " ++ pyUpper (prev.connector.getD "AND") ++ " " ++
      spec_join_fragment base target c ++ spec_on_clause_tail base target c rest

/-- The specification's ON clause: fragment 0 bare, each later fragment
prefixed with its predecessor's connector — a left fold, no parentheses. -/
def spec_on_clause (base target : String) : List JoinCondition → String
  | [] => ""
  | c :: rest =>
    spec_join_fragment base target c ++ spec_on_clause_tail base target c rest

end SpecOnClause

/-! ## Theorems -/

/-- C9: for every integer Informix type code `c`,
`cast_informix_to_postgresql_type c` equals
`cast_informix_to_postgresql_type (c % 256)`, the looked-up key `c % 256`
always lies in `[0, 256)` so the table entries with keys 256, 258, 262,
263, 269, 2061, 4117 and 4118 are unreachable; in particular code 4117
maps through `4117 % 256 = 21` to `"TEXT[]"`, never to its listed
`"JSONB"` entry, while `cast_informix_to_typescript_types` looks up the
raw code and does return its 4117 entry. -/
theorem cast_informix_pg_mod256_unreachable_keys :
    (∀ c : Int, cast_informix_to_postgresql_type c =
        cast_informix_to_postgresql_type (c % 256)
      ∧ 0 ≤ c % 256 ∧ c % 256 < 256)
    ∧ cast_informix_to_postgresql_type 4117 = "TEXT[]"
    ∧ (4117 : Int) % 256 = 21
    ∧ informix_to_pg_table 4117 = some "JSONB"
    ∧ cast_informix_to_typescript_types 4117 = "Record<string, any>"
    ∧ ∀ k ∈ ([256, 258, 262, 263, 269, 2061, 4117, 4118] : List Int),
        ∀ c : Int, c % 256 ≠ k := by
  refine ⟨fun c => ⟨?_, ?_, ?_⟩, by decide, by decide, by decide, by decide, ?_⟩
  · unfold cast_informix_to_postgresql_type
    rw [Int.emod_emod_of_dvd c (dvd_refl 256)]
  · exact Int.emod_nonneg c (by norm_num)
  · exact Int.emod_lt_of_pos c (by norm_num)
  · intro k hk c he
    have hlt : c % 256 < 256 := Int.emod_lt_of_pos c (by norm_num)
    rw [he] at hlt
    simp only [List.mem_cons, List.not_mem_nil, or_false] at hk
    rcases hk with rfl | rfl | rfl | rfl | rfl | rfl | rfl | rfl <;> omega

/-- C10: when the `COUNT(*)` query fails, `InformixConnector.count_table_rows`
does not return a count: its `raise 0` raises `TypeError`, so the caller
sees an exception; `SqlServerConnector.count_table_rows` returns `0` on
the same failure (both return the fetched count on success). -/
theorem count_table_rows_failure_behaviour :
    ∀ (e : String) (row : Option Int),
      informix_count_table_rows (.error e) = .error "TypeError"
      ∧ (∀ n : Int, informix_count_table_rows (.error e) ≠ .ok n)
      ∧ sqlserver_count_table_rows (.error e) = .ok 0
      ∧ informix_count_table_rows (.ok row) = .ok (row.getD 0)
      ∧ sqlserver_count_table_rows (.ok row) = .ok (row.getD 0) := by
  intro e row
  refine ⟨rfl, ?_, rfl, rfl, rfl⟩
  intro n h
  exact Except.noConfusion h

/-- C3: each dialect's batch-read query is its fixed scaffold with the
table name, offset and limit interpolated, and among the scaffold pieces
the Informix query carries exactly the `SKIP … FIRST` idiom, the
PostgreSQL query exactly the `OFFSET … LIMIT` idiom, and the SQL Server
query exactly the `OFFSET … ROWS FETCH NEXT … ROWS ONLY` idiom, with no
piece of any scaffold containing another dialect's pagination keyword. -/
theorem extract_data_batch_pagination_idioms :
    (∀ (t : String) (o l : Nat),
      informix_extract_data_batch_query t o l =
        "SELECT SKIP " ++ toString o ++ " FIRST " ++ toString l ++ " * FROM " ++
          t ++ ";"
      ∧ postgres_extract_data_batch_query t "" o l =
        "SELECT * FROM " ++ t ++ " OFFSET " ++ toString o ++ " LIMIT " ++
          toString l ++ ";"
      ∧ sqlserver_extract_data_batch_query t o l =
        "SELECT * FROM " ++ t ++ " ORDER BY (SELECT NULL) OFFSET " ++ toString o ++
          " ROWS FETCH NEXT " ++ toString l ++ " ROWS ONLY;")
    ∧ (informix_batch_scaffold = ["SELECT SKIP ", " FIRST ", " * FROM ", ";"]
      ∧ postgres_batch_scaffold = ["SELECT * FROM ", " OFFSET ", " LIMIT ", ";"]
      ∧ sqlserver_batch_scaffold = ["SELECT * FROM ", " ORDER BY (SELECT NULL) OFFSET ",
          " ROWS FETCH NEXT ", " ROWS ONLY;"])
    ∧ ((∃ p ∈ informix_batch_scaffold, sqlHasToken "SKIP" p)
      ∧ (∃ p ∈ informix_batch_scaffold, sqlHasToken "FIRST" p)
      ∧ ∀ p ∈ informix_batch_scaffold, ¬ sqlHasToken "OFFSET" p ∧
          ¬ sqlHasToken "LIMIT" p ∧ ¬ sqlHasToken "FETCH" p ∧ ¬ sqlHasToken "ROWS" p)
    ∧ ((∃ p ∈ postgres_batch_scaffold, sqlHasToken "OFFSET" p)
      ∧ (∃ p ∈ postgres_batch_scaffold, sqlHasToken "LIMIT" p)
      ∧ ∀ p ∈ postgres_batch_scaffold, ¬ sqlHasToken "SKIP" p ∧
          ¬ sqlHasToken "FIRST" p ∧ ¬ sqlHasToken "FETCH" p ∧ ¬ sqlHasToken "ROWS" p)
    ∧ ((∃ p ∈ sqlserver_batch_scaffold, sqlHasToken "OFFSET" p)
      ∧ (∃ p ∈ sqlserver_batch_scaffold, sqlHasToken "FETCH NEXT" p)
      ∧ (∃ p ∈ sqlserver_batch_scaffold, sqlHasToken "ROWS ONLY" p)
      ∧ ∀ p ∈ sqlserver_batch_scaffold, ¬ sqlHasToken "SKIP" p ∧
          ¬ sqlHasToken "FIRST" p ∧ ¬ sqlHasToken "LIMIT" p) := by
  refine ⟨fun t o l => ⟨rfl, ?_, rfl⟩, ⟨rfl, rfl, rfl⟩, by decide, by decide, by decide⟩
  simp [postgres_extract_data_batch_query, String.empty_append]

/-! ### String and list helper lemmas -/

lemma str_append_ne_left {a : String} (h : a ≠ "") (b : String) : a ++ b ≠ "" := by
  intro hc
  apply h
  have hd := congrArg String.data hc
  rw [String.data_append] at hd
  apply String.ext
  exact (List.append_eq_nil.mp hd).1

lemma str_append_ne_right (a : String) {b : String} (h : b ≠ "") : a ++ b ≠ "" := by
  intro hc
  apply h
  have hd := congrArg String.data hc
  rw [String.data_append] at hd
  apply String.ext
  exact (List.append_eq_nil.mp hd).2

lemma joinSep_cons (sep a : String) (l : List String) :
    joinSep sep (a :: l) = a ++ (if l.isEmpty then "" else sep ++ joinSep sep l) := by
  cases l with
  | nil => simp [joinSep]
  | cons b l => simp [joinSep, String.append_assoc]

lemma joinSep_ne_empty (sep : String) {a : String} (h : a ≠ "") (l : List String) :
    joinSep sep (a :: l) ≠ "" := by
  cases l with
  | nil => simpa [joinSep] using h
  | cons b l => exact str_append_ne_left (str_append_ne_left h sep) _

lemma hasNonWs_append_left {a : String} (h : hasNonWs a = true) (b : String) :
    hasNonWs (a ++ b) = true := by
  unfold hasNonWs at *
  rw [String.data_append, List.any_append, h, Bool.true_or]

lemma infix_append_head {α} {p a b : List α} {x : α} (hx : p.head? = some x)
    (hxa : x ∉ a) (h : p <:+: a ++ b) : p <:+: b := by
  induction a with
  | nil => simpa using h
  | cons c a ih =>
    rw [List.cons_append, List.infix_cons_iff] at h
    rcases h with hp | hi
    · exfalso
      cases p with
      | nil => simp at hx
      | cons y p' =>
        have hyc : y = c := (List.cons_prefix_cons.mp hp).1
        have hyx : y = x := by simpa using hx
        exact hxa (by rw [← hyx, hyc]; exact List.mem_cons_self c a)
    · exact ih (fun hmem => hxa (List.mem_cons_of_mem c hmem)) hi

lemma sqlToken_of_append {tok : String} {x : Char} (hx : tok.data.head? = some x)
    {a : String} (ha : x ∉ a.data) (b : String) (h : sqlHasToken tok (a ++ b)) :
    sqlHasToken tok b := by
  unfold sqlHasToken at *
  rw [String.data_append] at h
  exact infix_append_head hx ha h

/-! ### Non-emptiness of generated condition clauses -/

set_option maxHeartbeats 1600000 in
lemma pg_value_condition_ne (f op : String) (v sv : SqlValue) (vt : String) :
    PostgresUtils.build_value_condition f op v sv vt ≠ "" := by
  unfold PostgresUtils.build_value_condition
  dsimp only
  split_ifs <;>
    first
      | (apply str_append_ne_right; decide)
      | (apply str_append_ne_left; apply str_append_ne_right; decide)

set_option maxHeartbeats 1600000 in
lemma pg_column_condition_ne (c : WhereCondition) :
    PostgresUtils.build_column_condition c ≠ "" := by
  unfold PostgresUtils.build_column_condition
  dsimp only
  split_ifs <;>
    first
      | (apply str_append_ne_right; decide)
      | (apply str_append_ne_left; apply str_append_ne_right; decide)

lemma pg_condition_clause_ne (c : WhereCondition) :
    PostgresUtils.condition_clause c ≠ "" := by
  unfold PostgresUtils.condition_clause
  dsimp only
  split_ifs
  · exact pg_column_condition_ne c
  all_goals exact pg_value_condition_ne _ _ _ _ _

set_option maxHeartbeats 1600000 in
lemma informix_value_condition_ne (f op : String) (v sv : SqlValue) (vt : String) :
    InformixUtils.build_value_condition f op v sv vt ≠ "" := by
  unfold InformixUtils.build_value_condition
  dsimp only
  split_ifs <;>
    first
      | (apply str_append_ne_right; decide)
      | (apply str_append_ne_left; apply str_append_ne_right; decide)

set_option maxHeartbeats 1600000 in
lemma informix_column_condition_ne (c : WhereCondition) :
    InformixUtils.build_column_condition c ≠ "" := by
  unfold InformixUtils.build_column_condition
  dsimp only
  cases hop : c.operator <;> dsimp only <;>
    split_ifs <;>
      first
        | (apply str_append_ne_right; decide)
        | (apply str_append_ne_left; apply str_append_ne_right; decide)

lemma informix_condition_clause_ne (c : WhereCondition) :
    InformixUtils.condition_clause c ≠ "" := by
  unfold InformixUtils.condition_clause
  dsimp only
  split_ifs
  · exact informix_column_condition_ne c
  all_goals exact informix_value_condition_ne _ _ _ _ _

lemma pg_where_parts_cons (prev : Option WhereCondition) (c : WhereCondition)
    (rest : List WhereCondition) :
    ∃ p l', PostgresUtils.where_parts prev (c :: rest) = p :: l' ∧ p ≠ "" := by
  unfold PostgresUtils.where_parts
  dsimp only
  rw [if_neg (pg_condition_clause_ne c)]
  cases prev with
  | none => exact ⟨_, _, rfl, pg_condition_clause_ne c⟩
  | some p => exact ⟨_, _, rfl, str_append_ne_right _ (pg_condition_clause_ne c)⟩

lemma informix_where_parts_cons (prev : Option WhereCondition) (c : WhereCondition)
    (rest : List WhereCondition) :
    ∃ p l', InformixUtils.where_parts prev (c :: rest) = p :: l' ∧ p ≠ "" := by
  unfold InformixUtils.where_parts
  dsimp only
  rw [if_neg (informix_condition_clause_ne c)]
  cases prev with
  | none => exact ⟨_, _, rfl, informix_condition_clause_ne c⟩
  | some p => exact ⟨_, _, rfl, str_append_ne_right _ (informix_condition_clause_ne c)⟩

lemma pg_select_clause_hasNonWs (fs : List SelectedField) :
    hasNonWs (PostgresUtils.build_select_clause fs) = true := by
  unfold PostgresUtils.build_select_clause
  cases fs with
  | nil => decide
  | cons f fs => exact hasNonWs_append_left (by decide) _

/-- C5: for every non-empty condition list, both dialects' WHERE builders
with `invert = true` wrap exactly the non-inverted clause body in exactly
one `NOT (…)`: there is a non-empty body `B` with the non-inverted call
returning `WHERE B` and the inverted call returning `WHERE NOT (B)`. -/
theorem build_where_invert_wraps_single_not (conds : List WhereCondition)
    (h : conds ≠ []) :
    (∃ B, B ≠ "" ∧ PostgresUtils.build_where_clause conds false = "WHERE " ++ B
      ∧ PostgresUtils.build_where_clause conds true = "WHERE NOT (" ++ B ++ ")")
    ∧ (∃ B, B ≠ "" ∧ InformixUtils.build_where_clause conds false = "WHERE " ++ B
      ∧ InformixUtils.build_where_clause conds true = "WHERE NOT (" ++ B ++ ")") := by
  obtain ⟨c, rest, rfl⟩ := List.exists_cons_of_ne_nil h
  constructor
  · obtain ⟨p, l', hp, hne⟩ := pg_where_parts_cons Option.none c rest
    have hw : joinSep " " (PostgresUtils.where_parts Option.none (c :: rest)) ≠ "" := by
      rw [hp]; exact joinSep_ne_empty _ hne _
    refine ⟨joinSep " " (PostgresUtils.where_parts Option.none (c :: rest)), hw, ?_, ?_⟩
    · unfold PostgresUtils.build_where_clause
      simp only [List.isEmpty_cons, Bool.false_eq_true, if_false]
      rw [if_pos hw]
    · unfold PostgresUtils.build_where_clause
      simp only [List.isEmpty_cons, Bool.false_eq_true, if_false, if_true]
  · obtain ⟨p, l', hp, hne⟩ := informix_where_parts_cons Option.none c rest
    have hw : joinSep " " (InformixUtils.where_parts Option.none (c :: rest)) ≠ "" := by
      rw [hp]; exact joinSep_ne_empty _ hne _
    refine ⟨joinSep " " (InformixUtils.where_parts Option.none (c :: rest)), hw, ?_, ?_⟩
    · unfold InformixUtils.build_where_clause
      simp only [List.isEmpty_cons, Bool.false_eq_true, if_false]
      rw [if_neg (by simp), if_pos hw]
    · unfold InformixUtils.build_where_clause
      simp only [List.isEmpty_cons, Bool.false_eq_true, if_false, true_and]
      rw [if_pos hw]

/-- Witness for `build_where_invert_wraps_single_not` at a one-element
condition list. -/
theorem build_where_invert_wraps_single_not_witness :
    ∃ B, B ≠ "" ∧
      PostgresUtils.build_where_clause
        [⟨"", "age", some ">", Option.none, .num 18, .none, some "number",
          Option.none, "", "", Option.none, Option.none⟩] false = "WHERE " ++ B
      ∧ PostgresUtils.build_where_clause
        [⟨"", "age", some ">", Option.none, .num 18, .none, some "number",
          Option.none, "", "", Option.none, Option.none⟩] true =
          "WHERE NOT (" ++ B ++ ")" :=
  (build_where_invert_wraps_single_not _ (by simp)).1

/-- C2: `build_query` with a missing or empty `baseTable` is a validation
failure returning no SQL (`none`); and every SQL string it does return is
complete: it starts with the full SELECT clause followed by the
`FROM <baseTable>` clause (and then the remaining clauses), never a
syntactically partial fragment. -/
theorem build_query_validation_or_complete (data : QueryData) (inv : Bool) :
    (data.baseTable = "" → postgres_build_query data inv = Option.none)
    ∧ ∀ s, postgres_build_query data inv = some s →
        ∃ rest, s = PostgresUtils.build_select_clause data.selectedFields ++ "\n" ++
          ("FROM " ++ data.baseTable) ++ rest := by
  constructor
  · intro h
    simp [postgres_build_query, h]
  · intro s hs
    by_cases hb : data.baseTable = ""
    · rw [postgres_build_query, if_pos hb] at hs
      exact absurd hs (by simp)
    · rw [postgres_build_query, if_neg hb] at hs
      dsimp only at hs
      rw [List.filter_cons, if_pos (pg_select_clause_hasNonWs data.selectedFields),
        List.filter_cons, if_pos (hasNonWs_append_left (by decide) data.baseTable)]
        at hs
      rw [Option.some_inj] at hs
      refine ⟨if (List.filter hasNonWs
          [PostgresUtils.build_joins_clause data.baseTable data.joins,
           PostgresUtils.build_where_clause data.whereConditions inv,
           PostgresUtils.build_group_by data.groupByFields,
           PostgresUtils.build_having_clause data.having]).isEmpty then ""
        else "\n" ++ joinSep "\n" (List.filter hasNonWs
          [PostgresUtils.build_joins_clause data.baseTable data.joins,
           PostgresUtils.build_where_clause data.whereConditions inv,
           PostgresUtils.build_group_by data.groupByFields,
           PostgresUtils.build_having_clause data.having]), ?_⟩
      rw [← hs]
      show joinSep "\n" (_ :: _ :: _) = _
      rw [show ∀ (a b : String) (l : List String),
            joinSep "\n" (a :: b :: l) = (a ++ "\n") ++ joinSep "\n" (b :: l)
          from fun a b l => rfl]
      rw [joinSep_cons]
      rw [← String.append_assoc]

/-- C8: a query description with a non-empty base table and no selected
fields, joins, where conditions, group-by fields or having conditions
compiles to exactly `SELECT *` followed by `FROM <table>`, and the output
contains no `WHERE`, `GROUP BY` or `HAVING` clause text (unless the table
name itself carries it). -/
theorem build_query_base_table_only (t : String) (inv : Bool) (h : t ≠ "") :
    postgres_build_query ⟨t, [], [], [], [], []⟩ inv =
      some ("SELECT *" ++ "\n" ++ ("FROM " ++ t))
    ∧ ∀ tok ∈ (["WHERE", "GROUP BY", "HAVING"] : List String),
        ¬ sqlHasToken tok t →
          ¬ sqlHasToken tok ("SELECT *" ++ "\n" ++ ("FROM " ++ t)) := by
  constructor
  · rw [postgres_build_query, if_neg h]
    dsimp only
    rw [show PostgresUtils.build_select_clause [] = "SELECT *" from rfl,
      show PostgresUtils.build_joins_clause t [] = "" from rfl,
      show PostgresUtils.build_where_clause [] inv = "" from rfl,
      show PostgresUtils.build_group_by [] = "" from rfl,
      show PostgresUtils.build_having_clause [] = "" from rfl]
    rw [List.filter_cons, if_pos (by decide : hasNonWs "SELECT *" = true),
      List.filter_cons, if_pos (hasNonWs_append_left (by decide) t)]
    rw [show List.filter hasNonWs ["", "", "", ""] = ([] : List String) from rfl]
    rfl
  · intro tok htok hnt hcontra
    simp only [List.mem_cons, List.not_mem_nil, or_false] at htok
    rcases htok with rfl | rfl | rfl
    · have hx : ("WHERE" : String).data.head? = some 'W' := rfl
      exact hnt (sqlToken_of_append hx (by decide) t
        (sqlToken_of_append hx (by decide) _ hcontra))
    · have hx : ("GROUP BY" : String).data.head? = some 'G' := rfl
      exact hnt (sqlToken_of_append hx (by decide) t
        (sqlToken_of_append hx (by decide) _ hcontra))
    · have hx : ("HAVING" : String).data.head? = some 'H' := rfl
      exact hnt (sqlToken_of_append hx (by decide) t
        (sqlToken_of_append hx (by decide) _ hcontra))

/-- Witness for `build_query_base_table_only` at table `orders`. -/
theorem build_query_base_table_only_witness :
    postgres_build_query ⟨"orders", [], [], [], [], []⟩ false =
      some "SELECT *\nFROM orders" := by
  have h := (build_query_base_table_only "orders" false (by decide)).1
  simpa using h

/-! ### Lemmas about leading characters and `pyLstrip` -/

lemma pyLstrip_of_head_not_ws {s : String}
    (h : ∀ ch, s.data.head? = some ch → ch.isWhitespace = false) : pyLstrip s = s := by
  obtain ⟨l⟩ := s
  cases l with
  | nil => rfl
  | cons ch l =>
    unfold pyLstrip
    rw [List.dropWhile_cons, h ch rfl]
    simp

lemma head_not_ws_append {a b : String}
    (ha : ∀ ch, a.data.head? = some ch → ch.isWhitespace = false)
    (hb : ∀ ch, b.data.head? = some ch → ch.isWhitespace = false) :
    ∀ ch, (a ++ b).data.head? = some ch → ch.isWhitespace = false := by
  intro ch h
  rw [String.data_append] at h
  cases hd : a.data with
  | nil => rw [hd, List.nil_append] at h; exact hb ch h
  | cons x l =>
    rw [hd, List.cons_append, List.head?_cons] at h
    exact ha ch (by rw [hd, List.head?_cons, h])

lemma head_not_ws_append_left {a : String} (hne : a ≠ "")
    (ha : ∀ ch, a.data.head? = some ch → ch.isWhitespace = false) (b : String) :
    ∀ ch, (a ++ b).data.head? = some ch → ch.isWhitespace = false := by
  intro ch h
  rw [String.data_append] at h
  cases hd : a.data with
  | nil => exact absurd (String.ext hd) hne
  | cons x l =>
    rw [hd, List.cons_append, List.head?_cons] at h
    exact ha ch (by rw [hd, List.head?_cons, h])

lemma head_not_ws_of_lit {a : String}
    (h : ((a.data.head?.getD 'x').isWhitespace) = false) :
    ∀ ch, a.data.head? = some ch → ch.isWhitespace = false := by
  intro ch hc
  rw [hc] at h
  simpa using h

lemma spec_fragment_head_not_ws (base target : String) (c : JoinCondition)
    (hb : ∀ ch, base.data.head? = some ch → ch.isWhitespace = false) :
    (spec_join_fragment base target c ≠ "") ∧
      ∀ ch, (spec_join_fragment base target c).data.head? = some ch →
        ch.isWhitespace = false := by
  unfold spec_join_fragment
  have hdot : ∀ ch, ("." : String).data.head? = some ch → ch.isWhitespace = false :=
    head_not_ws_of_lit (by decide)
  have h1 : ∀ ch, (base ++ ".").data.head? = some ch → ch.isWhitespace = false :=
    head_not_ws_append hb hdot
  have n1 : base ++ "." ≠ "" := str_append_ne_right _ (by decide)
  have h2 := head_not_ws_append_left n1 h1 c.sourceField
  have n2 : base ++ "." ++ c.sourceField ≠ "" := str_append_ne_left n1 _
  have h3 := head_not_ws_append_left n2 h2 " "
  have n3 : base ++ "." ++ c.sourceField ++ " " ≠ "" := str_append_ne_left n2 _
  have h4 := head_not_ws_append_left n3 h3 (c.operator.getD "=")
  have n4 := str_append_ne_left n3 (c.operator.getD "=")
  have h5 := head_not_ws_append_left n4 h4 " "
  have n5 := str_append_ne_left n4 " "
  have h6 := head_not_ws_append_left n5 h5 target
  have n6 := str_append_ne_left n5 target
  have h7 := head_not_ws_append_left n6 h6 "."
  have n7 := str_append_ne_left n6 "."
  exact ⟨str_append_ne_left n7 _, head_not_ws_append_left n7 h7 c.targetField⟩

/-! ### The ON-clause fold of the join builders -/

lemma informix_join_clauses_eq_pg (base target : String) :
    ∀ (conds : List JoinCondition) (prev : Option JoinCondition),
      InformixUtils.join_condition_clauses base target prev conds =
        PostgresUtils.join_condition_clauses base target prev conds := by
  intro conds
  induction conds with
  | nil => intro prev; rfl
  | cons c rest ih =>
    intro prev
    simp only [InformixUtils.join_condition_clauses,
      PostgresUtils.join_condition_clauses]
    rw [ih (some c)]

lemma pg_join_clauses_tail_spec (base target : String) :
    ∀ (conds : List JoinCondition) (prev : JoinCondition),
      (∀ c ∈ conds, c.sourceField ≠ "" ∧ c.targetField ≠ "") →
      joinSep "" (PostgresUtils.join_condition_clauses base target (some prev) conds) =
        spec_on_clause_tail base target prev conds := by
  intro conds
  induction conds with
  | nil => intro prev _; rfl
  | cons c rest ih =>
    intro prev hws
    obtain ⟨hs, ht⟩ := hws c (List.mem_cons_self c rest)
    have hrest : ∀ x ∈ rest, x.sourceField ≠ "" ∧ x.targetField ≠ "" :=
      fun x hx => hws x (List.mem_cons_of_mem c hx)
    simp only [PostgresUtils.join_condition_clauses]
    rw [if_pos ⟨hs, ht⟩, joinSep_cons]
    cases rest with
    | nil =>
      simp only [PostgresUtils.join_condition_clauses]
      simp only [spec_on_clause_tail, spec_join_fragment]
      simp [String.append_assoc]
    | cons c2 rest2 =>
      obtain ⟨hs2, ht2⟩ := hrest c2 (List.mem_cons_self c2 rest2)
      have hcons : ∃ p l', PostgresUtils.join_condition_clauses base target (some c)
          (c2 :: rest2) = p :: l' := by
        simp only [PostgresUtils.join_condition_clauses]
        rw [if_pos ⟨hs2, ht2⟩]
        exact ⟨_, _, rfl⟩
      obtain ⟨p, l', hp⟩ := hcons
      rw [hp, show (p :: l').isEmpty = false from rfl, ← hp, if_neg (by simp),
        ih c hrest]
      simp only [spec_on_clause_tail, spec_join_fragment]
      simp [String.append_assoc, String.empty_append]

lemma pg_join_clauses_head_spec (base target : String) (c : JoinCondition)
    (rest : List JoinCondition) (hs : c.sourceField ≠ "") (ht : c.targetField ≠ "")
    (hrest : ∀ x ∈ rest, x.sourceField ≠ "" ∧ x.targetField ≠ "") :
    joinSep "" (PostgresUtils.join_condition_clauses base target Option.none (c :: rest)) =
      spec_on_clause base target (c :: rest) := by
  simp only [PostgresUtils.join_condition_clauses]
  rw [if_pos ⟨hs, ht⟩, joinSep_cons]
  cases rest with
  | nil =>
    simp only [PostgresUtils.join_condition_clauses]
    simp only [spec_on_clause, spec_on_clause_tail, spec_join_fragment]
    simp [String.append_assoc]
  | cons c2 rest2 =>
    obtain ⟨hs2, ht2⟩ := hrest c2 (List.mem_cons_self c2 rest2)
    have hcons : ∃ p l', PostgresUtils.join_condition_clauses base target (some c)
        (c2 :: rest2) = p :: l' := by
      simp only [PostgresUtils.join_condition_clauses]
      rw [if_pos ⟨hs2, ht2⟩]
      exact ⟨_, _, rfl⟩
    obtain ⟨p, l', hp⟩ := hcons
    rw [hp, show (p :: l').isEmpty = false from rfl, ← hp, if_neg (by simp),
      pg_join_clauses_tail_spec base target (c2 :: rest2) c hrest]
    simp only [spec_on_clause, spec_on_clause_tail, spec_join_fragment]
    simp [String.append_assoc, String.empty_append]

/-- C6: for a join with a non-empty, well-formed condition list (every
condition names a source and a target field; the base table does not
start with whitespace), the emitted ON clause of both dialects is exactly
the specification's left fold: fragment 0 bare, fragment i (i > 0)
prefixed with the upper-cased connector stored on condition i-1
(default `AND`), concatenated left to right with no parentheses. -/
theorem join_on_clause_is_left_fold (base : String) (jt : Option String)
    (target : String) (conds : List JoinCondition) (htarget : target ≠ "")
    (hconds : conds ≠ [])
    (hws : ∀ c ∈ conds, c.sourceField ≠ "" ∧ c.targetField ≠ "")
    (hb : ∀ ch, base.data.head? = some ch → ch.isWhitespace = false) :
    PostgresUtils.build_joins_clause base [⟨jt, target, conds⟩] =
      PostgresUtils.join_keyword jt ++ " " ++ target ++ " ON " ++
        spec_on_clause base target conds
    ∧ InformixUtils.build_joins_clause base [⟨jt, target, conds⟩] =
      PostgresUtils.join_keyword jt ++ " " ++ target ++ " ON " ++
        spec_on_clause base target conds := by
  obtain ⟨c, rest, rfl⟩ := List.exists_cons_of_ne_nil hconds
  obtain ⟨hs, ht⟩ := hws c (List.mem_cons_self c rest)
  have hrest : ∀ x ∈ rest, x.sourceField ≠ "" ∧ x.targetField ≠ "" :=
    fun x hx => hws x (List.mem_cons_of_mem c hx)
  have hfrag := spec_fragment_head_not_ws base target c hb
  have hstrip : pyLstrip (spec_on_clause base target (c :: rest)) =
      spec_on_clause base target (c :: rest) := by
    rw [show spec_on_clause base target (c :: rest) =
        spec_join_fragment base target c ++ spec_on_clause_tail base target c rest
      from rfl]
    exact pyLstrip_of_head_not_ws (head_not_ws_append_left hfrag.1 hfrag.2 _)
  constructor
  · unfold PostgresUtils.build_joins_clause
    rw [List.filterMap_cons, List.filterMap_nil]
    rw [show PostgresUtils.join_part base ⟨jt, target, c :: rest⟩ =
        some (PostgresUtils.join_keyword jt ++ " " ++ target ++ " ON " ++
          pyLstrip (joinSep "" (PostgresUtils.join_condition_clauses base target
            Option.none (c :: rest)))) by
      unfold PostgresUtils.join_part
      dsimp only
      rw [if_neg (by simp [htarget])]]
    rw [pg_join_clauses_head_spec base target c rest hs ht hrest, hstrip]
    rfl
  · unfold InformixUtils.build_joins_clause
    rw [List.filterMap_cons, List.filterMap_nil]
    rw [show InformixUtils.join_part base ⟨jt, target, c :: rest⟩ =
        some (PostgresUtils.join_keyword jt ++ " " ++ target ++ " ON " ++
          pyLstrip (joinSep "" (InformixUtils.join_condition_clauses base target
            Option.none (c :: rest)))) by
      unfold InformixUtils.join_part
      dsimp only
      rw [if_neg (by simp [htarget])]]
    rw [informix_join_clauses_eq_pg base target (c :: rest) Option.none,
      pg_join_clauses_head_spec base target c rest hs ht hrest, hstrip]
    rfl

/-- Witness for `join_on_clause_is_left_fold`: a two-condition join with
an `OR` connector stored on the first condition. -/
theorem join_on_clause_is_left_fold_witness :
    PostgresUtils.build_joins_clause "t"
        [⟨some "LEFT", "u",
          [⟨"a", "b", Option.none, some "or"⟩, ⟨"c", "d", some "!=", Option.none⟩]⟩] =
      PostgresUtils.join_keyword (some "LEFT") ++ " " ++ "u" ++ " ON " ++
        spec_on_clause "t" "u"
          [⟨"a", "b", Option.none, some "or"⟩, ⟨"c", "d", some "!=", Option.none⟩] :=
  (join_on_clause_is_left_fold "t" (some "LEFT") "u"
    [⟨"a", "b", Option.none, some "or"⟩, ⟨"c", "d", some "!=", Option.none⟩]
    (by decide) (by simp) (by decide)
    (fun ch h => by
      rw [show ("t" : String).data.head? = some 't' from rfl] at h
      injection h with h2
      rw [← h2]
      decide)).1

/-! ### Quote escaping in value literals -/

lemma escapeQuotes_doubles_quotes (s : String) :
    (escapeQuotes s).data.count '\'' = 2 * s.data.count '\'' := by
  obtain ⟨l⟩ := s
  unfold escapeQuotes
  dsimp only
  induction l with
  | nil => rfl
  | cons c l ih =>
    rw [List.map_cons, List.flatten_cons, List.count_append, ih]
    by_cases hc : c = '\''
    · subst hc
      simp [List.count_cons]
      omega
    · simp [hc, List.count_cons]

/-- The emitted SQL of `_build_value_condition`, as refuted by C7: for the
`CONTAINS` operator the raw string value is interpolated into the LIKE
pattern, so the embedded single quote of `O'Brien` is not doubled (the
escaped literal `O''Brien` appears nowhere in the output), although
`_format_value` would have doubled it. -/
theorem contains_quote_not_escaped_counterexample :
    PostgresUtils.build_value_condition "name" "CONTAINS" (.str "O'Brien") .none
        "string" = "name LIKE '%O'Brien%'"
    ∧ sqlHasToken "O'Brien" "name LIKE '%O'Brien%'"
    ∧ ¬ sqlHasToken "O''Brien" "name LIKE '%O'Brien%'"
    ∧ escapeQuotes "O'Brien" = "O''Brien"
    ∧ InformixUtils.build_value_condition "name" "CONTAINS" (.str "O'Brien") .none
        "string" = "name LIKE '%O'Brien%'" := by
  exact ⟨rfl, by decide, by decide, rfl, rfl⟩

/-- C7 (amended): quote doubling happens exactly in the literals built by
`_format_value`: for every operator outside the special-cased set (in
particular the plain comparisons `=`, `!=`, `<`, `>`, `<=`, `>=`), the
emitted condition carries the single-quote-escaped literal, in both
dialects, and the escaping doubles every embedded quote; the LIKE-pattern
operators (CONTAINS / NOT CONTAIN / STARTS WITH / ENDS WITH) and the
regex operators interpolate the raw, unescaped string instead. -/
theorem value_literal_quote_escaping :
    (∀ s : String, (escapeQuotes s).data.count '\'' = 2 * s.data.count '\'')
    ∧ (∀ (f op s : String) (sv : SqlValue),
        op ∉ (["BETWEEN", "NOT BETWEEN", "LIST CONTAINS", "LIST NOT CONTAINS",
          "CONTAINS", "NOT CONTAIN", "STARTS WITH", "ENDS WITH", "MATCHES",
          "NOT MATCHES", "IN", "NOT IN"] : List String) →
        PostgresUtils.build_value_condition f op (.str s) sv "string" =
          f ++ " " ++ op ++ " " ++ ("'" ++ escapeQuotes s ++ "'")
        ∧ InformixUtils.build_value_condition f op (.str s) sv "string" =
          f ++ " " ++ op ++ " " ++ ("'" ++ escapeQuotes s ++ "'"))
    ∧ (∀ (f s : String) (sv : SqlValue),
        PostgresUtils.build_value_condition f "CONTAINS" (.str s) sv "string" =
          f ++ " LIKE '%" ++ s ++ "%'"
        ∧ PostgresUtils.build_value_condition f "STARTS WITH" (.str s) sv "string" =
          f ++ " LIKE '" ++ s ++ "%'"
        ∧ PostgresUtils.build_value_condition f "MATCHES" (.str s) sv "string" =
          f ++ " ~ '" ++ s ++ "'"
        ∧ InformixUtils.build_value_condition f "CONTAINS" (.str s) sv "string" =
          f ++ " LIKE '%" ++ s ++ "%'") := by
  refine ⟨escapeQuotes_doubles_quotes, fun f op s sv hop => ?_,
    fun f s sv => ⟨rfl, rfl, rfl, rfl⟩⟩
  simp only [List.mem_cons, List.not_mem_nil, or_false, not_or] at hop
  obtain ⟨h1, h2, h3, h4, h5, h6, h7, h8, h9, h10, h11, h12⟩ := hop
  constructor
  · unfold PostgresUtils.build_value_condition
    dsimp only
    rw [if_neg (by simp [h1, h2]), if_neg h3, if_neg h4, if_neg h5, if_neg h6,
      if_neg h7, if_neg h8, if_neg h9, if_neg h10, if_neg (by simp [h11, h12])]
    rfl
  · unfold InformixUtils.build_value_condition
    dsimp only
    rw [if_neg (by simp [h1, h2]), if_neg h3, if_neg h4, if_neg h5, if_neg h6,
      if_neg h7, if_neg h8, if_neg (by simp [h9, h10]),
      if_neg (by simp [h11, h12]), if_neg (by simp)]
    rfl

/-- Witness for `value_literal_quote_escaping`: the plain `=` comparison
escapes the quote of `O'Brien`. -/
theorem value_literal_quote_escaping_witness :
    PostgresUtils.build_value_condition "name" "=" (.str "O'Brien") .none "string" =
      "name" ++ " " ++ "=" ++ " " ++ ("'" ++ escapeQuotes "O'Brien" ++ "'") :=
  ((value_literal_quote_escaping).2.1 "name" "=" "O'Brien" .none (by decide)).1

/-- The compiled query refuting C4: a join with unsupported
`joinType = "FULL OUTER"` and a condition with unsupported operator
`"FOO"` still compile; `build_query` returns a complete SQL string (no
validation failure), with the join fallen back to `INNER JOIN` and the
unknown operator interpolated into the WHERE clause. -/
theorem unsupported_join_operator_counterexample :
    postgres_build_query
        ⟨"t", [],
         [⟨some "FULL OUTER", "u", [⟨"a", "b", Option.none, Option.none⟩]⟩],
         [⟨"", "x", some "FOO", Option.none, .str "v", .none, some "string",
           Option.none, "", "", Option.none, Option.none⟩],
         [], []⟩ false =
      some "SELECT *\nFROM t\nINNER JOIN u ON t.a = u.b\nWHERE x FOO 'v'"
    ∧ sqlHasToken "INNER JOIN" "SELECT *\nFROM t\nINNER JOIN u ON t.a = u.b\nWHERE x FOO 'v'"
    ∧ sqlHasToken "FOO" "SELECT *\nFROM t\nINNER JOIN u ON t.a = u.b\nWHERE x FOO 'v'" := by
  exact ⟨rfl, by decide, by decide⟩

/-- C4 (amended): an unsupported join type is not a validation failure:
`_build_joins_clause` falls back to `INNER JOIN` and emits the join; an
operator outside the supported set is not a validation failure either:
`_build_value_condition` interpolates it into the generic
`<field> <operator> <literal>` comparison. -/
theorem unsupported_join_and_operator_fall_back (base : String) (jt : Option String)
    (target : String) (conds : List JoinCondition)
    (hjt : pyUpper (jt.getD "INNER") ∉ (["INNER", "LEFT", "RIGHT"] : List String))
    (htarget : target ≠ "") (hconds : conds ≠ []) :
    (∃ rest, PostgresUtils.build_joins_clause base [⟨jt, target, conds⟩] =
      "INNER JOIN " ++ rest)
    ∧ ∀ (f op : String) (v sv : SqlValue) (vt : String),
        op ∉ (["BETWEEN", "NOT BETWEEN", "LIST CONTAINS", "LIST NOT CONTAINS",
          "CONTAINS", "NOT CONTAIN", "STARTS WITH", "ENDS WITH", "MATCHES",
          "NOT MATCHES", "IN", "NOT IN"] : List String) →
        PostgresUtils.build_value_condition f op v sv vt =
          f ++ " " ++ op ++ " " ++ PostgresUtils.format_value v vt := by
  constructor
  · have hkw : PostgresUtils.join_keyword jt = "INNER JOIN" := by
      unfold PostgresUtils.join_keyword
      dsimp only
      simp only [List.mem_cons, List.not_mem_nil, or_false, not_or] at hjt
      obtain ⟨g1, g2, g3⟩ := hjt
      rw [if_neg g1, if_neg g2, if_neg g3]
    refine ⟨target ++ " ON " ++ pyLstrip (joinSep ""
      (PostgresUtils.join_condition_clauses base target Option.none conds)), ?_⟩
    unfold PostgresUtils.build_joins_clause
    rw [List.filterMap_cons, List.filterMap_nil,
      show PostgresUtils.join_part base ⟨jt, target, conds⟩ =
        some (PostgresUtils.join_keyword jt ++ " " ++ target ++ " ON " ++
          pyLstrip (joinSep "" (PostgresUtils.join_condition_clauses base target
            Option.none conds))) by
        unfold PostgresUtils.join_part
        dsimp only
        rw [if_neg (by simp [htarget, hconds])]]
    rw [hkw, show ("INNER JOIN" ++ " " : String) = "INNER JOIN " from rfl]
    simp [joinSep, String.append_assoc]
  · intro f op v sv vt hop
    simp only [List.mem_cons, List.not_mem_nil, or_false, not_or] at hop
    obtain ⟨h1, h2, h3, h4, h5, h6, h7, h8, h9, h10, h11, h12⟩ := hop
    unfold PostgresUtils.build_value_condition
    dsimp only
    rw [if_neg (by simp [h1, h2]), if_neg h3, if_neg h4, if_neg h5, if_neg h6,
      if_neg h7, if_neg h8, if_neg h9, if_neg h10, if_neg (by simp [h11, h12])]

/-- Witness for `unsupported_join_and_operator_fall_back` at
`joinType = "FULL OUTER"`. -/
theorem unsupported_join_and_operator_fall_back_witness :
    ∃ rest, PostgresUtils.build_joins_clause "t"
        [⟨some "FULL OUTER", "u", [⟨"a", "b", Option.none, Option.none⟩]⟩] =
      "INNER JOIN " ++ rest :=
  (unsupported_join_and_operator_fall_back "t" (some "FULL OUTER") "u"
    [⟨"a", "b", Option.none, Option.none⟩] (by decide) (by decide) (by simp)).1

/-! ### Delta extraction: one row per key, timestamps past the watermark -/

lemma foldl_pick_mem (l : List LogRow) :
    ∀ acc : LogRow,
      l.foldl (fun acc x => if acc.ts < x.ts then x else acc) acc = acc ∨
        l.foldl (fun acc x => if acc.ts < x.ts then x else acc) acc ∈ l := by
  induction l with
  | nil => intro acc; left; rfl
  | cons x l ih =>
    intro acc
    rw [List.foldl_cons]
    rcases ih (if acc.ts < x.ts then x else acc) with h | h
    · rw [h]
      by_cases hx : acc.ts < x.ts
      · right; rw [if_pos hx]; exact List.mem_cons_self x l
      · left; rw [if_neg hx]
    · right; exact List.mem_cons_of_mem x h

lemma latestRow_mem {l : List LogRow} {r : LogRow} (h : latestRow l = some r) :
    r ∈ l := by
  cases l with
  | nil => exact absurd h (by simp [latestRow])
  | cons a l =>
    unfold latestRow at h
    rw [Option.some_inj] at h
    rcases foldl_pick_mem l a with h2 | h2
    · rw [← h, h2]; exact List.mem_cons_self a l
    · rw [← h]; exact List.mem_cons_of_mem a h2

lemma filterMap_latest_pairwise {f : List Int → Option LogRow}
    (hf : ∀ k r, f k = some r → r.key = k) :
    ∀ keys : List (List Int), keys.Nodup →
      (keys.filterMap f).Pairwise (fun a b => a.key ≠ b.key) := by
  intro keys
  induction keys with
  | nil => intro _; simp
  | cons k rest ih =>
    intro hnd
    rw [List.nodup_cons] at hnd
    obtain ⟨hk, hnd'⟩ := hnd
    rw [List.filterMap_cons]
    cases hf2 : f k with
    | none => exact ih hnd'
    | some r =>
      rw [List.pairwise_cons]
      refine ⟨?_, ih hnd'⟩
      intro b hb he
      obtain ⟨k', hk', hfk'⟩ := List.mem_filterMap.mp hb
      apply hk
      rw [← hf k r hf2, he, hf k' b hfk']
      exact hk'

lemma delta_pick_spec (tbl : List LogRow) (T : Nat) :
    (((tbl.filter (fun r => decide (T < r.ts))).map (fun r => r.key)).dedup.filterMap
        (fun k => latestRow ((tbl.filter (fun r => decide (T < r.ts))).filter
          (fun r => decide (r.key = k))))).Pairwise (fun a b => a.key ≠ b.key)
    ∧ ∀ r ∈ ((tbl.filter (fun r => decide (T < r.ts))).map (fun r => r.key)).dedup.filterMap
        (fun k => latestRow ((tbl.filter (fun r => decide (T < r.ts))).filter
          (fun r => decide (r.key = k)))), T < r.ts := by
  constructor
  · apply filterMap_latest_pairwise (fun k r h => ?_) _ (List.nodup_dedup _)
    have hm := latestRow_mem h
    have := (List.mem_filter.mp hm).2
    exact of_decide_eq_true this
  · intro r hr
    obtain ⟨k, hk, hfk⟩ := List.mem_filterMap.mp hr
    have hm := latestRow_mem hfk
    have hm2 := (List.mem_filter.mp hm).1
    exact of_decide_eq_true (List.mem_filter.mp hm2).2

lemma informix_keep_max {tbl : List LogRow} {T : Nat} {r : LogRow}
    (h : r ∈ informix_fetch_deltas_rows tbl T) :
    sqlMax ((tbl.filter (fun r2 => decide (r2.key = r.key) &&
      decide (T < r2.ts))).map (fun x => x.ts)) = some r.ts ∧ T < r.ts := by
  unfold informix_fetch_deltas_rows at h
  have hcond := (List.mem_filter.mp h).2
  rw [Bool.and_eq_true] at hcond
  obtain ⟨hm, hts⟩ := hcond
  refine ⟨?_, of_decide_eq_true hts⟩
  cases hmx : sqlMax ((tbl.filter (fun r2 => decide (r2.key = r.key) &&
      decide (T < r2.ts))).map (fun x => x.ts)) with
  | none => rw [hmx] at hm; exact absurd hm (by simp)
  | some m =>
    rw [hmx] at hm
    simp only at hm
    exact congrArg some (of_decide_eq_true hm)

/-- C1 (amended): conceptually executed against any change-log table, the
PostgreSQL (`DISTINCT ON`) and SQL Server (`ROW_NUMBER … rn = 1`) delta
queries return at most one row per primary-key combination, and every
returned row's `Date_operation` is strictly greater than the watermark;
the Informix correlated-subquery form also returns only post-watermark
rows, but returns *all* rows tying for the per-key maximum timestamp, so
it returns at most one row per key only when no two log rows of the same
key share a timestamp. -/
theorem fetch_deltas_one_row_per_key (tbl : List LogRow) (T : Nat) :
    ((postgres_fetch_deltas_rows tbl T).Pairwise (fun a b => a.key ≠ b.key)
      ∧ ∀ r ∈ postgres_fetch_deltas_rows tbl T, T < r.ts)
    ∧ ((sqlserver_fetch_deltas_rows tbl T).Pairwise (fun a b => a.key ≠ b.key)
      ∧ ∀ r ∈ sqlserver_fetch_deltas_rows tbl T, T < r.ts)
    ∧ (∀ r ∈ informix_fetch_deltas_rows tbl T, T < r.ts)
    ∧ (tbl.Pairwise (fun a b => a.key = b.key → a.ts ≠ b.ts) →
        (informix_fetch_deltas_rows tbl T).Pairwise (fun a b => a.key ≠ b.key)) := by
  refine ⟨delta_pick_spec tbl T, delta_pick_spec tbl T,
    fun r hr => (informix_keep_max hr).2, fun hpw => ?_⟩
  have hsub : List.Sublist (informix_fetch_deltas_rows tbl T) tbl :=
    List.filter_sublist _
  have hpw2 := hpw.sublist hsub
  refine hpw2.imp_of_mem ?_
  intro a b ha hb hab he
  have hga := (informix_keep_max ha).1
  have hgb := (informix_keep_max hb).1
  rw [he] at hga
  rw [hga] at hgb
  rw [Option.some_inj] at hgb
  exact hab he hgb

/-- The Informix correlated-subquery delta query is refuted as a
one-row-per-key extraction by a timestamp tie: two log rows with the same
key and the same post-watermark timestamp are both returned. -/
theorem informix_fetch_deltas_tie_counterexample :
    informix_fetch_deltas_rows [⟨[1], 5, 0⟩, ⟨[1], 5, 1⟩] 0 =
      [⟨[1], 5, 0⟩, ⟨[1], 5, 1⟩]
    ∧ ¬ (informix_fetch_deltas_rows [⟨[1], 5, 0⟩, ⟨[1], 5, 1⟩] 0).Pairwise
        (fun a b => a.key ≠ b.key) := by
  exact ⟨by decide, by decide⟩

/-- Witness for `fetch_deltas_one_row_per_key`: with distinct per-key
timestamps the Informix form too returns one row per key. -/
theorem fetch_deltas_one_row_per_key_witness :
    (informix_fetch_deltas_rows [⟨[1], 3, 0⟩, ⟨[1], 5, 1⟩, ⟨[2], 4, 2⟩] 2).Pairwise
      (fun a b => a.key ≠ b.key) :=
  (fetch_deltas_one_row_per_key [⟨[1], 3, 0⟩, ⟨[1], 5, 1⟩, ⟨[2], 4, 2⟩] 2).2.2.2
    (by decide)

/-- Witness for `build_query_validation_or_complete`: an empty base table
yields `none`; table `orders` yields a string with the full
SELECT-then-FROM skeleton. -/
theorem build_query_validation_or_complete_witness :
    postgres_build_query ⟨"", [], [], [], [], []⟩ false = Option.none
    ∧ ∃ rest, "SELECT *\nFROM orders" =
        PostgresUtils.build_select_clause [] ++ "\n" ++ ("FROM " ++ "orders") ++ rest :=
  ⟨(build_query_validation_or_complete ⟨"", [], [], [], [], []⟩ false).1 rfl,
   (build_query_validation_or_complete ⟨"orders", [], [], [], [], []⟩ false).2
     "SELECT *\nFROM orders" rfl⟩
